import Mathlib

/-!
Shallow embedding of the `env_canada` library (files `ec_data.py`, `ec_hydro.py`,
`ec_aqhi.py`, `ec_cache.py`) and proofs about it.

External primitives (HTTP transport, the XML/CSV low-level parsers, the
geodesic-distance function of `geopy`, the `kombu` message-bus client and the
`ratelimit` decorator) are modelled by explicit inputs or function parameters,
per their documented contracts; everything the repository itself computes is
translated directly from the Python source.

Conventions:
* Python `None` is `Option.none`; a Python dict is an association list whose
  `dictSet` replaces in place (preserving insertion order) or appends.
* A Python function that can raise is modelled by a result carrying
  `Option PyErr`; because Python mutations performed before a raise survive,
  such results also carry the state as mutated up to the point of the raise.
* Machine floats of the source only ever flow through the code as opaque
  parsed values or are compared for order; they are modelled by `ℚ` (for
  parsed coordinates / measurements) or by an arbitrary linear order (for
  geodesic distances).
-/

/-- Kinds of Python exceptions that the modelled code can raise.  `transport`
covers `requests` errors and `et.fromstring` / document-level parse failures
(both happen before any state mutation of the enclosing fetch). -/
inductive PyErr where
  | transport
  | attrError
  | keyError
  | typeError
  | valueError
deriving DecidableEq, Repr

/-- Lookup in an association list (Python `dict.get`): first entry whose key
matches.  Dicts built by the model never hold duplicate keys, so first match
equals Python's unique binding. -/
def assocGet? {κ α : Type _} [DecidableEq κ] (d : List (κ × α)) (k : κ) : Option α :=
  match d with
  | [] => none
  | (k', v) :: rest => if k' = k then some v else assocGet? rest k

/-- Python `d[k] = v`: replace the binding in place if the key is present
(keeping insertion order), otherwise append a new binding. -/
def dictSet {κ α : Type _} [DecidableEq κ] (d : List (κ × α)) (k : κ) (v : α) :
    List (κ × α) :=
  match d with
  | [] => [(k, v)]
  | (k', v') :: rest => if k' = k then (k, v) :: rest else (k', v') :: dictSet rest k v

theorem assocGet?_dictSet_same {κ α : Type _} [DecidableEq κ]
    (d : List (κ × α)) (k : κ) (v : α) : assocGet? (dictSet d k v) k = some v := by
  induction d with
  | nil => simp [dictSet, assocGet?]
  | cons e rest ih =>
    obtain ⟨k', v'⟩ := e
    by_cases h : k' = k <;> simp [dictSet, assocGet?, h, ih]

theorem assocGet?_dictSet_other {κ α : Type _} [DecidableEq κ]
    (d : List (κ × α)) (k k₂ : κ) (v : α) (hne : k ≠ k₂) :
    assocGet? (dictSet d k v) k₂ = assocGet? d k₂ := by
  induction d with
  | nil => simp [dictSet, assocGet?, hne]
  | cons e rest ih =>
    obtain ⟨k', v'⟩ := e
    by_cases h : k' = k
    · subst h
      simp [dictSet, assocGet?, hne]
    · simp [dictSet, assocGet?, h, ih]

/-- Python `pat in hay` on strings, over the underlying character lists:
contiguous-substring containment. -/
def containsSub (hay pat : List Char) : Bool :=
  pat.isPrefixOf hay ||
    match hay with
    | [] => false
    | _ :: t => containsSub t pat

/-- Python `pat in hay` on `String`s. -/
def strContains (hay pat : String) : Bool :=
  containsSub hay.data pat.data

theorem containsSub_iff (hay pat : List Char) :
    containsSub hay pat = true ↔ ∃ i, pat.isPrefixOf (hay.drop i) = true := by
  induction hay with
  | nil =>
    simp only [containsSub, Bool.or_false]
    constructor
    · intro h
      exact ⟨0, h⟩
    · rintro ⟨i, h⟩
      simpa using h
  | cons c t ih =>
    simp only [containsSub, Bool.or_eq_true, ih]
    constructor
    · rintro (h | ⟨i, h⟩)
      · exact ⟨0, h⟩
      · exact ⟨i + 1, h⟩
    · rintro ⟨i, h⟩
      match i with
      | 0 => exact Or.inl h
      | j + 1 => exact Or.inr ⟨j, h⟩

theorem containsSub_refl (l : List Char) : containsSub l l = true := by
  have h : l.isPrefixOf l = true := by
    simp [List.isPrefixOf_iff_prefix]
  cases l with
  | nil => simp [containsSub, h]
  | cons c t => simp [containsSub, h]

theorem containsSub_of_drop (hay pat : List Char) (i : Nat)
    (h : containsSub (hay.drop i) pat = true) : containsSub hay pat = true := by
  rw [containsSub_iff] at h ⊢
  obtain ⟨j, hj⟩ := h
  exact ⟨i + j, by simpa [List.drop_drop] using hj⟩

/-! ## Nearest-station resolution (C1)

`ec_data.py` `closest_site` / `closest_aqhi` and `ec_hydro.py` `closest_site`
all run `min(site_list, key=site_distance)`.  Python `min` folds left keeping
the current best and replaces it only on a strict key decrease, so ties keep
the earliest element.  The geodesic distance of `geopy` is an external
primitive: it is a parameter `dist` valued in an arbitrary linear order. -/

/-- Python `min(x :: xs, key)`: left fold replacing the best element only when
the key strictly decreases. -/
def pyMin {α D : Type _} [LinearOrder D] (key : α → D) (x : α) (xs : List α) : α :=
  xs.foldl (fun best y => if key y < key best then y else best) x

/-- Python `min(sites, key)` on a possibly empty list (`ValueError`, i.e.
`none`, on empty input). -/
def closestRecord {α D : Type _} [LinearOrder D] (key : α → D) :
    List α → Option α
  | [] => none
  | x :: xs => some (pyMin key x xs)

/-- The fields of one row of the hydrometric station list used by
`ECHydro.closest_site`. -/
structure HydroSite where
  Prov : String
  ID : String
  Name : String
  Latitude : ℚ
  Longitude : ℚ
deriving DecidableEq, Repr

/-- The fields of one row of the citypage site list used by
`ECData.closest_site`. -/
structure EcSite where
  ProvinceCodes : String
  Codes : String
  Latitude : ℚ
  Longitude : ℚ
deriving DecidableEq, Repr

/-- `ECHydro.closest_site`: `min(site_list, key=site_distance)`, returning the
whole record. -/
def ECHydro.closest_site {D : Type _} [LinearOrder D]
    (dist : ℚ × ℚ → ℚ × ℚ → D) (lat lon : ℚ) (sites : List HydroSite) :
    Option HydroSite :=
  closestRecord (fun s => dist (lat, lon) (s.Latitude, s.Longitude)) sites

/-- `ECData.closest_site`: the same scan, then
`'{}/{}'.format(closest['Province Codes'], closest['Codes'])`. -/
def ECData.closest_site {D : Type _} [LinearOrder D]
    (dist : ℚ × ℚ → ℚ × ℚ → D) (lat lon : ℚ) (sites : List EcSite) :
    Option String :=
  (closestRecord (fun s => dist (lat, lon) (s.Latitude, s.Longitude)) sites).map
    (fun closest => closest.ProvinceCodes ++ "/" ++ closest.Codes)

theorem pyMin_le {α D : Type _} [LinearOrder D] (key : α → D) :
    ∀ (xs : List α) (x : α) (y : α), y ∈ x :: xs → key (pyMin key x xs) ≤ key y := by
  intro xs
  induction xs with
  | nil =>
    intro x y hy
    simp only [List.mem_singleton] at hy
    subst hy
    exact le_refl _
  | cons z zs ih =>
    intro x y hy
    have hstep : pyMin key x (z :: zs) = pyMin key (if key z < key x then z else x) zs := by
      simp [pyMin, List.foldl_cons]
    rw [hstep]
    have hle : key (if key z < key x then z else x) ≤ key x ∧
        key (if key z < key x then z else x) ≤ key z := by
      by_cases h : key z < key x
      · simp [h, le_of_lt h]
      · simp [h, le_of_not_lt h]
    rcases List.mem_cons.mp hy with hx | hy'
    · subst hx
      exact le_trans (ih _ _ (List.mem_cons_self _ _)) hle.1
    · rcases List.mem_cons.mp hy' with hz | hmem
      · subst hz
        exact le_trans (ih _ _ (List.mem_cons_self _ _)) hle.2
      · exact ih _ _ (List.mem_cons_of_mem _ hmem)

theorem pyMin_first {α D : Type _} [LinearOrder D] (key : α → D) :
    ∀ (xs : List α) (x : α), ∃ l₁ l₂, x :: xs = l₁ ++ pyMin key x xs :: l₂ ∧
      ∀ y ∈ l₁, key (pyMin key x xs) < key y := by
  intro xs
  induction xs with
  | nil =>
    intro x
    exact ⟨[], [], by simp [pyMin], by simp⟩
  | cons z zs ih =>
    intro x
    have hstep : pyMin key x (z :: zs) = pyMin key (if key z < key x then z else x) zs := by
      simp [pyMin, List.foldl_cons]
    by_cases h : key z < key x
    · obtain ⟨l₁, l₂, heq, hlt⟩ := ih z
      refine ⟨x :: l₁, l₂, ?_, ?_⟩
      · rw [hstep, if_pos h]
        simpa using congrArg (x :: ·) heq
      · intro y hy
        rw [hstep, if_pos h]
        rcases List.mem_cons.mp hy with hx | hmem
        · subst hx
          exact lt_of_le_of_lt (pyMin_le key zs z z (List.mem_cons_self _ _)) h
        · exact hlt y hmem
    · obtain ⟨l₁, l₂, heq, hlt⟩ := ih x
      rw [hstep, if_neg h]
      match l₁, heq with
      | [], heq =>
        have h0 := heq
        simp only [List.nil_append, List.cons.injEq] at h0
        refine ⟨[], z :: zs, ?_, by simp⟩
        simp [← h0.1]
      | w :: l₁t, heq =>
        have h0 := heq
        simp only [List.cons_append, List.cons.injEq] at h0
        obtain ⟨hw, hrest⟩ := h0
        refine ⟨x :: z :: l₁t, l₂, ?_, ?_⟩
        · conv_lhs => rw [hrest]
          simp [List.cons_append]
        · intro y hy
          have hrx : key (pyMin key x zs) < key x := by
            have := hlt w (by simp)
            simpa [← hw] using this
          rcases List.mem_cons.mp hy with h1 | h2
          · subst h1; exact hrx
          · rcases List.mem_cons.mp h2 with h3 | h4
            · subst h3
              exact lt_of_lt_of_le hrx (le_of_not_lt h)
            · exact hlt y (by simp [← hw, h4])

theorem pyMin_mem {α D : Type _} [LinearOrder D] (key : α → D) (xs : List α) (x : α) :
    pyMin key x xs ∈ x :: xs := by
  obtain ⟨l₁, l₂, heq, -⟩ := pyMin_first key xs x
  rw [heq]
  exact List.mem_append.mpr (Or.inr (List.mem_cons_self _ _))

/-! ## Change notification (C2, C8)

`ec_hydro.py` and `ec_aqhi.py` poll a message bus: `update` opens a consumer
whose callback is `process_message` and calls
`self.connection.drain_events(timeout=5)` once; on `socket.timeout` it
returns silently.  `kombu`'s documented contract for
`Connection.drain_events` is to wait for and dispatch a *single* event, so a
poll is modelled as delivering the head of the pending message queue (or
nothing, on timeout). -/

/-- `HYDRO_MESSAGE.format(prov=..., station=...)` of `ec_hydro.py`. -/
def hydroMessage (prov station : String) : String :=
  "/hydrometric/csv/" ++ prov ++ "/hourly/" ++ prov ++ "_" ++ station ++
    "_hourly_hydrometric.csv"

/-- `OBSERVATION_MESSAGE.format(...)` of `ec_aqhi.py`. -/
def aqhiObservationMessage (zone region : String) : String :=
  "/air_quality/aqhi/" ++ zone ++ "/observation/realtime/xml/AQ_OBS_" ++ region ++
    "_CURRENT.xml"

/-- `FORECAST_MESSAGE.format(...)` of `ec_aqhi.py`. -/
def aqhiForecastMessage (zone region : String) : String :=
  "/air_quality/aqhi/" ++ zone ++ "/forecast/realtime/xml/AQ_FCST_" ++ region ++
    "_CURRENT.xml"

/-- `ECHydro.process_message`: `true` exactly when the callback calls
`fetch_new_data`, i.e. when the formatted path is a substring of the body. -/
def ECHydro.process_message_fetches (prov station body : String) : Bool :=
  strContains body (hydroMessage prov station)

/-- Number of fetches triggered by one `ECHydro.update` call when `queue` is
the list of pending bus messages (in arrival order): `drain_events` dispatches
at most the first one, a timeout dispatches none. -/
def ECHydro.update_fetch_count (prov station : String) (queue : List String) : Nat :=
  match queue.head? with
  | none => 0
  | some body => if ECHydro.process_message_fetches prov station body then 1 else 0

/-- `ECAQHI.process_message`: `if OBSERVATION_MESSAGE... in body: fetch obs
elif FORECAST_MESSAGE... in body: fetch forecast`.  Returns the number of
fetches performed by the callback. -/
def ECAQHI.process_message_fetch_count (zone region body : String) : Nat :=
  if strContains body (aqhiObservationMessage zone region) then 1
  else if strContains body (aqhiForecastMessage zone region) then 1
  else 0

/-- Number of fetches triggered by one `ECAQHI.update` call. -/
def ECAQHI.update_fetch_count (zone region : String) (queue : List String) : Nat :=
  match queue.head? with
  | none => 0
  | some body => ECAQHI.process_message_fetch_count zone region body

/-! ## Alert title classification (C7)

`ECData.alerts_meta` holds one regular expression per category and language;
`ECData.update` runs `re.search(meta[language]['pattern'], title)` for every
category and appends the alert to every category whose pattern matches.

The patterns have two shapes, translated to executable matchers:
* active categories use `.*KW((?!STOP).)*$` (with an alternation
  `(ALERTE|AVERTISSEMENT)` for French warnings): `re.search` succeeds iff the
  keyword occurs at some position such that the remainder of the title after
  this occurrence does not contain the stop word (`ENDED` / `TERMINÉ`) —
  each `(?!STOP).` consumes one character whose position does not start an
  occurrence of the stop word, and `$` forces consumption up to the end;
* the endings category uses `.*ENDED` resp. `.*TERMINÉE?`: `re.search`
  succeeds iff the title contains the keyword (the optional `E?` never
  affects searchability). -/

/-- Semantics of `re.search('.*' + kw + '((?!' + stop + ').)*$', title)`. -/
def activeSearch (title kw stop : String) : Bool :=
  (List.range (title.data.length + 1)).any fun i =>
    kw.data.isPrefixOf (title.data.drop i) &&
      !containsSub (title.data.drop (i + kw.data.length)) stop.data

/-- One language's entry of `ECData.alerts_meta`: the display label and the
ingredients of the pattern. -/
structure AlertPat where
  label : String
  keywords : List String
  stopword : String
  isEnding : Bool
deriving DecidableEq, Repr

/-- `re.search(pattern, title)` for one `alerts_meta` pattern. -/
def alertPatSearch (p : AlertPat) (title : String) : Bool :=
  if p.isEnding then strContains title (p.keywords.headD "")
  else p.keywords.any fun kw => activeSearch title kw p.stopword

/-- Language selector mirroring `self.language` of the Python sources. -/
inductive Lang where
  | english
  | french
deriving DecidableEq, Repr

/-- `self.language_abr = language[:2].upper()`. -/
def Lang.abr : Lang → String
  | .english => "EN"
  | .french => "FR"

/-- One category of `ECData.alerts_meta` (both languages). -/
structure AlertMetaEntry where
  english : AlertPat
  french : AlertPat
deriving DecidableEq, Repr

/-- `meta[self.language]`. -/
def AlertMetaEntry.get (m : AlertMetaEntry) : Lang → AlertPat
  | .english => m.english
  | .french => m.french

/-- `ECData.alerts_meta`, in its Python insertion order. -/
def alerts_meta : List (String × AlertMetaEntry) :=
  [("warnings",
    { english := ⟨"Warnings", ["WARNING"], "ENDED", false⟩
      french := ⟨"Alertes", ["ALERTE", "AVERTISSEMENT"], "TERMINÉ", false⟩ }),
   ("watches",
    { english := ⟨"Watches", ["WATCH"], "ENDED", false⟩
      french := ⟨"Veilles", ["VEILLE"], "TERMINÉ", false⟩ }),
   ("advisories",
    { english := ⟨"Advisories", ["ADVISORY"], "ENDED", false⟩
      french := ⟨"Avis", ["AVIS"], "TERMINÉ", false⟩ }),
   ("statements",
    { english := ⟨"Statements", ["STATEMENT"], "ENDED", false⟩
      french := ⟨"Bulletins", ["BULLETIN"], "TERMINÉ", false⟩ }),
   ("endings",
    { english := ⟨"Endings", ["ENDED"], "", true⟩
      french := ⟨"Terminaisons", ["TERMINÉ"], "", true⟩ })]

/-- The categories whose pattern matches a title, in `alerts_meta` order —
`ECData.update` appends the alert to exactly these categories. -/
def matchingCategories (lang : Lang) (title : String) : List String :=
  (alerts_meta.filter fun e => alertPatSearch (e.2.get lang) title).map (·.1)

/-! ## XML document model

`xml.etree.ElementTree` elements as used by the sources: a tag, an attribute
dict, an optional text, and a list of children.  The xpath expressions of the
sources are all simple relative paths `./a/b/c`, one of them with a predicate
`temperature[@class="high"]`; they are pre-parsed here into step lists. -/

/-- An `xml.etree.ElementTree` element. -/
inductive XmlElem where
  | node (tag : String) (attrib : List (String × String)) (text : Option String)
      (children : List XmlElem)

/-- Tag accessor. -/
def XmlElem.tag : XmlElem → String
  | .node t _ _ _ => t

/-- Attribute-dict accessor. -/
def XmlElem.attrib : XmlElem → List (String × String)
  | .node _ a _ _ => a

/-- Text accessor (`element.text`, `None` when absent). -/
def XmlElem.text : XmlElem → Option String
  | .node _ _ t _ => t

/-- Children accessor. -/
def XmlElem.children : XmlElem → List XmlElem
  | .node _ _ _ c => c

/-- One step of a pre-parsed xpath: a tag, optionally with an
`[@attr="value"]` predicate. -/
structure PStep where
  tag : String
  attr : Option (String × String) := none

/-- Plain xpath step. -/
def ps (t : String) : PStep := ⟨t, none⟩

/-- Whether an element satisfies an xpath step. -/
def stepMatches (s : PStep) (c : XmlElem) : Bool :=
  c.tag == s.tag &&
    match s.attr with
    | none => true
    | some (k, v) => assocGet? c.attrib k == some v

/-- Document-order traversal of a step list from a set of context elements. -/
def findallAux : List PStep → List XmlElem → List XmlElem
  | [], es => es
  | s :: rest, es =>
    findallAux rest ((es.flatMap XmlElem.children).filter (stepMatches s))

/-- `element.findall(path)`. -/
def XmlElem.findall (e : XmlElem) (p : List PStep) : List XmlElem :=
  findallAux p [e]

/-- `element.find(path)`: first match in document order, `None` if absent. -/
def XmlElem.find (e : XmlElem) (p : List PStep) : Option XmlElem :=
  (e.findall p).head?

/-- `element.findtext(path)` with default `None`: `None` when no element
matches, and the empty string when the element exists with no text. -/
def XmlElem.findtext (e : XmlElem) (p : List PStep) : Option String :=
  (e.find p).map fun c => c.text.getD ""

/-! ## ECData state and metadata tables -/

/-- One entry of `ECData.conditions_meta`; `attrKey` renders the Python
`'attribute'` key, whose name is reserved in Lean. -/
structure CondMeta where
  xpath : List PStep
  attrKey : Option String := none
  english : String
  french : String

/-- `meta[self.language]` for a conditions entry. -/
def CondMeta.label (m : CondMeta) : Lang → String
  | .english => m.english
  | .french => m.french

/-- `ECData.conditions_meta`, in Python insertion order. -/
def conditions_meta : List (String × CondMeta) :=
  [("temperature",
    { xpath := [ps "currentConditions", ps "temperature"]
      english := "Temperature", french := "Température" }),
   ("dewpoint",
    { xpath := [ps "currentConditions", ps "dewpoint"]
      english := "Dew Point", french := "Point de rosée" }),
   ("wind_chill",
    { xpath := [ps "currentConditions", ps "windChill"]
      english := "Wind Chill", french := "Refroidissement éolien" }),
   ("humidex",
    { xpath := [ps "currentConditions", ps "humidex"]
      english := "Humidex", french := "Humidex" }),
   ("pressure",
    { xpath := [ps "currentConditions", ps "pressure"]
      english := "Pressure", french := "Pression" }),
   ("tendency",
    { xpath := [ps "currentConditions", ps "pressure"]
      attrKey := some "tendency"
      english := "Tendency", french := "Tendance" }),
   ("humidity",
    { xpath := [ps "currentConditions", ps "relativeHumidity"]
      english := "Humidity", french := "Humidité" }),
   ("visibility",
    { xpath := [ps "currentConditions", ps "visibility"]
      english := "Visibility", french := "Visibilité" }),
   ("condition",
    { xpath := [ps "currentConditions", ps "condition"]
      english := "Condition", french := "Condition" }),
   ("wind_speed",
    { xpath := [ps "currentConditions", ps "wind", ps "speed"]
      english := "Wind Speed", french := "Vitesse de vent" }),
   ("wind_gust",
    { xpath := [ps "currentConditions", ps "wind", ps "gust"]
      english := "Wind Gust", french := "Rafale de vent" }),
   ("wind_dir",
    { xpath := [ps "currentConditions", ps "wind", ps "direction"]
      english := "Wind Direction", french := "Direction de vent" }),
   ("wind_bearing",
    { xpath := [ps "currentConditions", ps "wind", ps "bearing"]
      english := "Wind Bearing", french := "Palier de vent" }),
   ("high_temp",
    { xpath := [ps "forecastGroup", ps "forecast", ps "temperatures",
                ⟨"temperature", some ("class", "high")⟩]
      english := "High Temperature", french := "Haute température" }),
   ("low_temp",
    { xpath := [ps "forecastGroup", ps "forecast", ps "temperatures",
                ⟨"temperature", some ("class", "low")⟩]
      english := "Low Temperature", french := "Basse température" }),
   ("uv_index",
    { xpath := [ps "forecastGroup", ps "forecast", ps "uv", ps "index"]
      english := "UV Index", french := "Indice UV" }),
   ("pop",
    { xpath := [ps "forecastGroup", ps "forecast", ps "abbreviatedForecast", ps "pop"]
      english := "Chance of Precip.", french := "Probabilité d\x27averses" }),
   ("icon_code",
    { xpath := [ps "currentConditions", ps "iconCode"]
      english := "Icon Code", french := "Code icône" }),
   ("precip_yesterday",
    { xpath := [ps "yesterdayConditions", ps "precip"]
      english := "Precipitation Yesterday", french := "Précipitation d\x27hier" })]

/-- `ECData.aqhi_meta['label'][language]`. -/
def aqhi_meta_label : Lang → String
  | .english => "Air Quality Health Index"
  | .french => "Cote air santé"

/-- `ECData.summary_meta['forecast_period']`. -/
def summary_meta_forecast_period : CondMeta :=
  { xpath := [ps "forecastGroup", ps "forecast", ps "period"]
    attrKey := some "textForecastName"
    english := "", french := "" }

/-- `ECData.summary_meta['text_summary']`. -/
def summary_meta_text_summary : CondMeta :=
  { xpath := [ps "forecastGroup", ps "forecast", ps "textSummary"]
    english := "", french := "" }

/-- `ECData.summary_meta['label'][language]`. -/
def summary_meta_label : Lang → String
  | .english => "Forecast"
  | .french => "Prévision"

/-- `ECData.metadata_meta`, in Python insertion order. -/
def metadata_meta : List (String × List PStep) :=
  [("timestamp", [ps "currentConditions", ps "dateTime", ps "timeStamp"]),
   ("location", [ps "location", ps "name"]),
   ("station", [ps "currentConditions", ps "station"])]

/-- One value of `self.conditions`: the `label` key is always present; the
`value` key is present only when `get_condition` produced one (its content may
itself be Python `None`); the `unit` key is optional. -/
structure Condition where
  label : String
  value : Option (Option String) := none
  unit : Option String := none
deriving DecidableEq, Repr

/-- The partial dict returned by the local `get_condition` of
`ECData.update` (keys `value` and `unit`, possibly absent). -/
structure CondVal where
  value : Option (Option String) := none
  unit : Option String := none
deriving DecidableEq, Repr

/-- One alert appended by `ECData.update`. -/
structure Alert where
  title : String
  date : String
  detail : String
deriving DecidableEq, Repr

/-- One category of `self.alerts`: a list of alerts and a display label. -/
structure AlertCat where
  value : List Alert
  label : String
deriving DecidableEq, Repr

/-- One entry of `self.daily_forecasts`. -/
structure DailyForecast where
  period : Option String
  text_summary : Option String
  icon_code : Option String
  temperature : Option String
  temperature_class : Option String
deriving DecidableEq, Repr

/-- One entry of `self.hourly_forecasts`. -/
structure HourlyForecast where
  period : Option String
  condition : Option String
  temperature : Option String
  icon_code : Option String
  precip_probability : Option String
deriving DecidableEq, Repr

/-- One entry of `self.aqhi['forecasts']['daily']`. -/
structure AqhiDaily where
  period : Option String
  aqhi : Option String
deriving DecidableEq, Repr

/-- One entry of `self.aqhi['forecasts']['hourly']`. -/
structure AqhiHourly where
  period : String
  aqhi : Option String
deriving DecidableEq, Repr

/-- `self.aqhi['forecasts']`. -/
structure AqhiForecasts where
  daily : List AqhiDaily
  hourly : List AqhiHourly
deriving DecidableEq, Repr

/-- The `self.aqhi` dict: each key is absent until first assigned; `current`
and `utc_time` may be assigned Python `None`. -/
structure AqhiDictState where
  current : Option (Option String) := none
  utc_time : Option (Option String) := none
  forecasts : Option AqhiForecasts := none
deriving DecidableEq, Repr

/-- The mutable state of an `ECData` instance touched by `update`. -/
structure ECDataState where
  metadata : List (String × Option String)
  conditions : List (String × Condition)
  alerts : List (String × AlertCat)
  daily_forecasts : List DailyForecast
  hourly_forecasts : List HourlyForecast
  aqhi : AqhiDictState
  forecast_time : Option String
deriving DecidableEq, Repr

/-! ## Python string helpers used by the alert block -/

/-- Python `str.strip()`: leading and trailing whitespace removed. -/
def pyStrip (s : String) : String :=
  ⟨((s.data.dropWhile Char.isWhitespace).reverse.dropWhile Char.isWhitespace).reverse⟩

/-- Split a character list on a separator character (Python
`str.split(sep)` for a one-character separator). -/
def splitOnCharAux (sep : Char) : List Char → List Char → List (List Char)
  | [], acc => [acc.reverse]
  | c :: rest, acc =>
    if c = sep then acc.reverse :: splitOnCharAux sep rest []
    else splitOnCharAux sep rest (c :: acc)

/-- Python `s.split(sep)` for a one-character separator. -/
def strSplitOnChar (sep : Char) (s : String) : List String :=
  (splitOnCharAux sep s.data []).map fun l => ⟨l⟩

/-- Python `str.lower()` (ASCII range; the accented characters of French
titles are left unchanged, which only affects the cosmetic HTML-detail lookup
and none of the claims). -/
def pyLower (s : String) : String :=
  ⟨s.data.map Char.toLower⟩

/-- Python `str.title()`: the first cased character of every alphabetic run is
upper-cased, the rest lower-cased. -/
def pyTitleAux : Bool → List Char → List Char
  | _, [] => []
  | prev, c :: rest =>
    if c.isAlpha then
      (if prev then c.toLower else c.toUpper) :: pyTitleAux true rest
    else c :: pyTitleAux false rest

/-- Python `str.title()`. -/
def pyTitle (s : String) : String :=
  ⟨pyTitleAux false s.data⟩

/-- Left-to-right non-overlapping replacement, as `re.sub` with a literal
pattern performs.  The fuel argument (initialised to the input length, which
every step strictly consumes) keeps the recursion structural. -/
def replaceAllAux (pat repl : List Char) : Nat → List Char → List Char
  | 0, l => l
  | _ + 1, [] => []
  | fuel + 1, c :: rest =>
    if pat.isPrefixOf (c :: rest) ∧ 0 < pat.length then
      repl ++ replaceAllAux pat repl fuel (rest.drop (pat.length - 1))
    else c :: replaceAllAux pat repl fuel rest

/-- `re.sub(pat, repl, s)` for a literal pattern. -/
def replaceAll (s pat repl : String) : String :=
  ⟨replaceAllAux pat.data repl.data s.data.length s.data⟩

/-- `re.sub(r'\.(?=\S)', '. ', s)`: a space is inserted after every full stop
that is directly followed by a non-whitespace character. -/
def fixDotsAux : List Char → List Char
  | [] => []
  | '.' :: c :: rest =>
    if c.isWhitespace then '.' :: fixDotsAux (c :: rest)
    else '.' :: ' ' :: fixDotsAux (c :: rest)
  | c :: rest => c :: fixDotsAux rest

/-- `re.sub(r'\.(?=\S)', '. ', s)` on `String`. -/
def fixDots (s : String) : String :=
  ⟨fixDotsAux s.data⟩

/-- The BeautifulSoup alert-detail page, abstracted to the three queries
`ECData.update` performs on it: the texts of the `strong` elements, and the
results of the two CSS `select` calls for a given heading. -/
structure AlertSoup where
  strongTexts : List String
  dateFor : String → Option String
  detailFor : String → Option String

/-! ## ECData.update, phase by phase

`update` mutates the instance in source order: metadata, current conditions,
text summary, alerts, daily forecasts, hourly forecasts, AQHI observation,
AQHI forecast.  A raise leaves all mutations made before it in place, so every
phase returns both the fields it has (possibly partially) written and an
optional error. -/

/-- Metadata loop: `self.metadata[m] = xml_object.find(meta['xpath']).text` —
`find` returning `None` raises `AttributeError`, keeping earlier entries. -/
def metaLoop (doc : XmlElem) :
    List (String × List PStep) → List (String × Option String) →
      List (String × Option String) × Option PyErr
  | [], md => (md, none)
  | (m, xp) :: rest, md =>
    match doc.find xp with
    | none => (md, some .attrError)
    | some el => metaLoop doc rest (dictSet md m el.text)

/-- The local `get_condition` of `ECData.update`.  Note the Python truthiness
test `if element.attrib.get('units')`: an empty `units` attribute sets no
unit. -/
def get_condition (doc : XmlElem) (meta : CondMeta) : CondVal :=
  match doc.find meta.xpath with
  | none => {}
  | some el =>
    match meta.attrKey with
    | some a => { value := some (assocGet? el.attrib a) }
    | none =>
      { value := some el.text
        unit :=
          match assocGet? el.attrib "units" with
          | some u => if u == "" then none else some u
          | none => none }

/-- Conditions loop: `self.conditions[c] = {'label': meta[language]}` followed
by `.update(get_condition(meta))`. -/
def condLoop (lang : Lang) (doc : XmlElem) :
    List (String × CondMeta) → List (String × Condition) → List (String × Condition)
  | [], cs => cs
  | (c, meta) :: rest, cs =>
    let cv := get_condition doc meta
    condLoop lang doc rest
      (dictSet cs c { label := meta.label lang, value := cv.value, unit := cv.unit })

/-- Collect `[e.attrib.get('description').strip() for e in alert_elements]`:
an event without a `description` attribute raises `AttributeError`
(`None.strip()`). -/
def alertListLoop : List XmlElem → List String → List String × Option PyErr
  | [], acc => (acc, none)
  | e :: es, acc =>
    match assocGet? e.attrib "description" with
    | none => (acc, some .attrError)
    | some d => alertListLoop es (acc ++ [pyStrip d])

/-- Build one alert dict for a matched title: the HTML heading is the last
`strong` text containing the lowered title (with `terminé` rewritten to
`est terminé`), the date and the (non-endings) detail come from the two
CSS selections. -/
def buildAlert (soup : AlertSoup) (title category : String) : Alert :=
  let searchKey := replaceAll (pyLower title) "terminé" "est terminé"
  let htmlTitle := soup.strongTexts.foldl
    (fun acc s => if strContains (pyLower s) searchKey then s else acc) ""
  { title := pyTitle title
    date := (soup.dateFor htmlTitle).getD ""
    detail :=
      if category ≠ "endings" then
        match soup.detailFor htmlTitle with
        | some dt => fixDots dt
        | none => ""
      else "" }

/-- Append an alert to a category of the alerts dict (the category was just
initialised by the clearing loop, so the key is present). -/
def appendAlert (al : List (String × AlertCat)) (category : String) (a : Alert) :
    List (String × AlertCat) :=
  al.map fun e => if e.1 = category then (e.1, ⟨e.2.value ++ [a], e.2.label⟩) else e

/-- Inner classification loop over `alerts_meta` for one title. -/
def catLoop (lang : Lang) (soup : AlertSoup) (title : String) :
    List (String × AlertMetaEntry) → List (String × AlertCat) →
      List (String × AlertCat)
  | [], al => al
  | (cat, m) :: rest, al =>
    if alertPatSearch (m.get lang) title then
      catLoop lang soup title rest (appendAlert al cat (buildAlert soup title cat))
    else catLoop lang soup title rest al

/-- Outer classification loop over the collected titles. -/
def classifyLoop (lang : Lang) (soup : AlertSoup) :
    List String → List (String × AlertCat) → List (String × AlertCat)
  | [], al => al
  | title :: rest, al => classifyLoop lang soup rest (catLoop lang soup title alerts_meta al)

/-- Daily-forecast loop of `ECData.update`: each entry evaluates
`f.find('./temperatures/temperature').attrib.get('class')`, which raises
`AttributeError` when the forecast has no paired temperature element; the
entries appended so far are kept. -/
def dailyLoop : List XmlElem → List DailyForecast → List DailyForecast × Option PyErr
  | [], acc => (acc, none)
  | f :: fs, acc =>
    match f.find [ps "temperatures", ps "temperature"] with
    | none => (acc, some .attrError)
    | some tEl =>
      dailyLoop fs (acc ++
        [{ period := f.findtext [ps "period"]
           text_summary := f.findtext [ps "textSummary"]
           icon_code := f.findtext [ps "abbreviatedForecast", ps "iconCode"]
           temperature := f.findtext [ps "temperatures", ps "temperature"]
           temperature_class := assocGet? tEl.attrib "class" }])

/-- Hourly-forecast loop of `ECData.update` (all extractions tolerate
absence). -/
def hourlyLoop : List XmlElem → List HourlyForecast → List HourlyForecast
  | [], acc => acc
  | f :: fs, acc =>
    hourlyLoop fs (acc ++
      [{ period := assocGet? f.attrib "dateTimeUTC"
         condition := f.findtext [ps "condition"]
         temperature := f.findtext [ps "temperature"]
         icon_code := f.findtext [ps "iconCode"]
         precip_probability := f.findtext [ps "lop"] }])

/-- Inner period scan of the AQHI daily-forecast loop:
`if self.language_abr == p.attrib["lang"]: period = p.attrib["forecastName"]`,
where a missing attribute raises `KeyError`. -/
def periodScan (langAbr : String) :
    List XmlElem → Option String → Except PyErr (Option String)
  | [], period => .ok period
  | p :: rest, period =>
    match assocGet? p.attrib "lang" with
    | none => .error .keyError
    | some l =>
      if l = langAbr then
        match assocGet? p.attrib "forecastName" with
        | none => .error .keyError
        | some fn => periodScan langAbr rest (some fn)
      else periodScan langAbr rest period

/-- AQHI daily-forecast loop (`ec_data.py` lines 388-398 and the identical
`ec_aqhi.py` loop): the running `period` carries over between forecasts. -/
def aqhiDailyLoop (langAbr : String) :
    List XmlElem → Option String → List AqhiDaily → List AqhiDaily × Option PyErr
  | [], _, acc => (acc, none)
  | f :: fs, period, acc =>
    match periodScan langAbr (f.findall [ps "period"]) period with
    | .error e => (acc, some e)
    | .ok period' =>
      aqhiDailyLoop langAbr fs period'
        (acc ++ [{ period := period', aqhi := f.findtext [ps "airQualityHealthIndex"] }])

/-- AQHI hourly-forecast loop: `f.attrib["UTCTime"]` raises `KeyError` when
absent. -/
def aqhiHourlyLoop : List XmlElem → List AqhiHourly → List AqhiHourly × Option PyErr
  | [], acc => (acc, none)
  | f :: fs, acc =>
    match assocGet? f.attrib "UTCTime" with
    | none => (acc, some .keyError)
    | some t => aqhiHourlyLoop fs (acc ++ [{ period := t, aqhi := f.text }])

/-- Phase 1 of `ECData.update` on the citypage document: metadata, current
conditions, text summary and alerts, in source order.  Returns the new
`metadata`, `conditions` and `alerts` components (as mutated up to a raise),
an optional error, and how many extra HTTP requests (the alert-detail page)
were attempted. -/
def cityPhase (lang : Lang) (doc : XmlElem) (alertHtml : Option AlertSoup)
    (md : List (String × Option String)) (cs : List (String × Condition))
    (al : List (String × AlertCat)) :
    List (String × Option String) × List (String × Condition) ×
      List (String × AlertCat) × Option PyErr × Nat :=
  match metaLoop doc metadata_meta md with
  | (md', some e) => (md', cs, al, some e, 0)
  | (md', none) =>
    let cs1 := condLoop lang doc conditions_meta cs
    match (get_condition doc summary_meta_forecast_period).value with
    | none => (md', cs1, al, some .keyError, 0)
    | some pv =>
      match (get_condition doc summary_meta_text_summary).value with
      | none => (md', cs1, al, some .keyError, 0)
      | some sv =>
        match pv, sv with
        | some period, some summary =>
          let cs2 := dictSet cs1 "text_summary"
            { label := summary_meta_label lang
              value := some (some (period ++ ". " ++ summary)) }
          let al1 := alerts_meta.foldl
            (fun a e => dictSet a e.1 ⟨[], (e.2.get lang).label⟩) al
          match alertListLoop (doc.findall [ps "warnings", ps "event"]) [] with
          | (_, some e) => (md', cs2, al1, some e, 0)
          | (alertList, none) =>
            if alertList.isEmpty then (md', cs2, al1, none, 0)
            else
              match doc.find [ps "warnings"] with
              | none => (md', cs2, al1, some .attrError, 0)
              | some w =>
                match assocGet? w.attrib "url" with
                | none => (md', cs2, al1, some .transport, 1)
                | some _ =>
                  match alertHtml with
                  | none => (md', cs2, al1, some .transport, 1)
                  | some soup =>
                    (md', cs2, classifyLoop lang soup alertList al1, none, 1)
        | _, _ => (md', cs1, al, some .typeError, 0)

/-- Phase 2 of `ECData.update`: forecast time, daily and hourly forecasts.
The two lists are reset before the loops run, so a raise inside the daily
loop leaves a partial daily list and an empty hourly list. -/
def forecastPhase (doc : XmlElem) :
    Option String × List DailyForecast × List HourlyForecast × Option PyErr :=
  let ftime := doc.findtext [ps "forecastGroup", ps "dateTime", ps "timeStamp"]
  match dailyLoop (doc.findall [ps "forecastGroup", ps "forecast"]) [] with
  | (dl, some e) => (ftime, dl, [], some e)
  | (dl, none) =>
    (ftime, dl,
      hourlyLoop (doc.findall [ps "hourlyForecastGroup", ps "hourlyForecast"]) [],
      none)

/-- Phase 3 of `ECData.update`: the AQHI observation document.  Both
extractions are guarded `if element is not None` checks, and
`conditions['air_quality']` is rewritten from the fresh current value. -/
def aqhiObsPhase (lang : Lang) (aq : AqhiDictState) (cs : List (String × Condition))
    (inp : Option XmlElem) :
    AqhiDictState × List (String × Condition) × Option PyErr :=
  match inp with
  | none => (aq, cs, some .transport)
  | some od =>
    let cur : Option String :=
      match od.find [ps "airQualityHealthIndex"] with
      | some el => el.text
      | none => none
    let cs1 := dictSet cs "air_quality"
      { label := aqhi_meta_label lang, value := some cur }
    let utc : Option String :=
      match od.find [ps "dateStamp", ps "UTCStamp"] with
      | some el => el.text
      | none => none
    ({ aq with current := some cur, utc_time := some utc }, cs1, none)

/-- Phase 4 of `ECData.update`: the AQHI forecast document.
`self.aqhi['forecasts']` is reset to empty lists before the loops run, so a
raise leaves the partial lists in place. -/
def aqhiFcstPhase (langAbr : String) (aq : AqhiDictState) (inp : Option XmlElem) :
    AqhiDictState × Option PyErr :=
  match inp with
  | none => (aq, some .transport)
  | some fd =>
    match aqhiDailyLoop langAbr (fd.findall [ps "forecastGroup", ps "forecast"]) none [] with
    | (dl, some e) => ({ aq with forecasts := some ⟨dl, []⟩ }, some e)
    | (dl, none) =>
      match aqhiHourlyLoop (fd.findall [ps "hourlyForecastGroup", ps "hourlyForecast"]) [] with
      | (hl, e) => ({ aq with forecasts := some ⟨dl, hl⟩ }, e)

/-- The remote documents consumed by one `ECData.update` call: `none` stands
for a failed retrieval or a document-level parse failure of that request. -/
structure UpdateInputs where
  citypage : Option XmlElem
  alertHtml : Option AlertSoup
  aqhiObs : Option XmlElem
  aqhiFcst : Option XmlElem

/-- Result of one `ECData.update` call: the state as left behind (partial on
a raise), the raised error if any, and the number of HTTP requests
attempted. -/
structure UpdRes where
  state : ECDataState
  err : Option PyErr
  gets : Nat
deriving DecidableEq, Repr

/-- `ECData.update` (the undecorated body). -/
def ECData.update (lang : Lang) (st : ECDataState) (inp : UpdateInputs) : UpdRes :=
  match inp.citypage with
  | none => ⟨st, some .transport, 1⟩
  | some doc =>
    match cityPhase lang doc inp.alertHtml st.metadata st.conditions st.alerts with
    | (md, cs, al, some e, g) =>
      ⟨{ st with metadata := md, conditions := cs, alerts := al }, some e, 1 + g⟩
    | (md, cs, al, none, g) =>
      let st1 := { st with metadata := md, conditions := cs, alerts := al }
      match forecastPhase doc with
      | (ftime, dl, hl, some e) =>
        ⟨{ st1 with forecast_time := ftime, daily_forecasts := dl, hourly_forecasts := hl }, some e, 1 + g⟩
      | (ftime, dl, hl, none) =>
        let st2 :=
          { st1 with forecast_time := ftime, daily_forecasts := dl, hourly_forecasts := hl }
        match aqhiObsPhase lang st2.aqhi st2.conditions inp.aqhiObs with
        | (aq, cs2, some e) =>
          ⟨{ st2 with aqhi := aq, conditions := cs2 }, some e, 1 + g + 1⟩
        | (aq, cs2, none) =>
          let st3 := { st2 with aqhi := aq, conditions := cs2 }
          match aqhiFcstPhase lang.abr st3.aqhi inp.aqhiFcst with
          | (aq2, e) => ⟨{ st3 with aqhi := aq2 }, e, 1 + g + 2⟩

/-- Observable outcome of the decorated `update`: final state, a raised
(non-rate-limit) error if any, the Python return value when the call returns
(`some ()` models returning `None`), and the HTTP requests attempted. -/
structure UpdateOutcome where
  state : ECDataState
  raised : Option PyErr
  ret : Option Unit
  gets : Nat
deriving DecidableEq, Repr

/-- The decorated `update`:
`@ignore_ratelimit_error` over `@limits(calls=2, period=60)`.  `limits` raises
`RateLimitException` before the body runs when the call budget is exceeded
(`exceeded = true`); `ignore_ratelimit_error` catches exactly that exception
and returns `None`.  A successful body also returns `None`; any other raise
propagates. -/
def ECData.update_wrapped (exceeded : Bool) (lang : Lang) (st : ECDataState)
    (inp : UpdateInputs) : UpdateOutcome :=
  if exceeded then ⟨st, none, some (), 0⟩
  else
    let r := ECData.update lang st inp
    match r.err with
    | some e => ⟨r.state, some e, none, r.gets⟩
    | none => ⟨r.state, none, some (), r.gets⟩

/-! ## ECHydro: hydrometric readings and the station catalog -/

/-- Python `float(s)` on the plain decimal literals of the feeds (optional
sign, integer and/or fractional digits, surrounding whitespace); other float
syntax does not occur in them and is conservatively rejected. -/
def digitsToQ (ds : List Char) : ℚ :=
  ds.foldl (fun a c => a * 10 + ((c.toNat - 48 : ℕ) : ℚ)) 0

/-- Fractional digits to a rational. -/
def fracToQ (ds : List Char) : ℚ :=
  digitsToQ ds / (10 ^ ds.length)

/-- Python `float(s)`, `none` when `float` would raise `ValueError`. -/
def pyFloat? (s : String) : Option ℚ :=
  let l := (pyStrip s).data
  let sl : ℚ × List Char :=
    match l with
    | '-' :: r => (-1, r)
    | '+' :: r => (1, r)
    | r => (1, r)
  let ip := sl.2.takeWhile Char.isDigit
  let r1 := sl.2.dropWhile Char.isDigit
  match r1 with
  | [] => if ip.isEmpty then none else some (sl.1 * digitsToQ ip)
  | '.' :: r2 =>
    let fp := r2.takeWhile Char.isDigit
    let r3 := r2.dropWhile Char.isDigit
    if r3.isEmpty ∧ ¬(ip.isEmpty ∧ fp.isEmpty) then
      some (sl.1 * (digitsToQ ip + fracToQ fp))
    else none
  | _ => none

/-- `[h.split('/')[0].strip() for h in first_line.split(',')]`. -/
def csvHeader (line : String) : List String :=
  (strSplitOnChar ',' line).map fun h => pyStrip ((strSplitOnChar '/' h).headD "")

/-- Pair the fieldnames with one row's cells, `csv.DictReader` style: missing
cells get the restval `None`, surplus cells go to the rest key and are
invisible to string lookups. -/
def zipPad : List String → List String → List (String × Option String)
  | [], _ => []
  | h :: hs, [] => (h, none) :: zipPad hs []
  | h :: hs, c :: cs => (h, some c) :: zipPad hs cs

/-- One `csv.DictReader` row as a dict (last binding wins for duplicate
fieldnames, as in `dict(zip(...))`). -/
def rowDict (header : List String) (cells : List String) :
    List (String × Option String) :=
  (zipPad header cells).foldl (fun d e => dictSet d e.1 e.2) []

/-- One value of `self.measurements`. -/
structure HydroMeasurement where
  label : String
  value : ℚ
  unit : String
deriving DecidableEq, Repr

/-- The mutable state of an `ECHydro` instance touched by `fetch_new_data`;
the `dateutil` timestamp is abstracted to the parser's output type. -/
structure HydroState where
  measurements : List (String × HydroMeasurement)
  timestamp : Option Int
deriving DecidableEq, Repr

/-- Result of one `ECHydro.fetch_new_data` call. -/
structure HydroRes where
  state : HydroState
  err : Option PyErr
  gets : Nat
deriving DecidableEq, Repr

/-- One measurement step of `fetch_new_data`.  Python order: the lookup
(`KeyError` when the column is absent), the `!= ''` guard (which a `None`
cell passes), then `float` (`TypeError` on `None`, `ValueError` on a
malformed string). -/
def hydroMeasStep (latest : List (String × Option String))
    (meas : List (String × HydroMeasurement)) (colKey measKey label unit : String) :
    List (String × HydroMeasurement) × Option PyErr :=
  match assocGet? latest colKey with
  | none => (meas, some .keyError)
  | some cell =>
    if cell = some "" then (meas, none)
    else
      match cell with
      | none => (meas, some .typeError)
      | some s =>
        match pyFloat? s with
        | none => (meas, some .valueError)
        | some q => (dictSet meas measKey ⟨label, q, unit⟩, none)

/-- `ECHydro.fetch_new_data`.  The input is `none` on a failed retrieval,
otherwise the header line and the data rows of the decoded CSV; `isoP` is the
external `dateutil.parser.isoparse` primitive (`none` where it would
raise). -/
def ECHydro.fetch_new_data (isoP : String → Option Int) (st : HydroState)
    (inp : Option (String × List (List String))) : HydroRes :=
  match inp with
  | none => ⟨st, some .transport, 1⟩
  | some (headerLine, rows) =>
    let header := csvHeader headerLine
    let readings := rows.map (rowDict header)
    match readings.getLast? with
    | none => ⟨st, none, 1⟩
    | some latest =>
      match hydroMeasStep latest st.measurements "Water Level" "water_level"
          "Water Level" "m" with
      | (m1, some e) => ⟨⟨m1, st.timestamp⟩, some e, 1⟩
      | (m1, none) =>
        match hydroMeasStep latest m1 "Discharge" "discharge" "Discharge" "m³/s" with
        | (m2, some e) => ⟨⟨m2, st.timestamp⟩, some e, 1⟩
        | (m2, none) =>
          match assocGet? latest "Date" with
          | none => ⟨⟨m2, st.timestamp⟩, some .keyError, 1⟩
          | some dcell =>
            match dcell with
            | none => ⟨⟨m2, st.timestamp⟩, some .typeError, 1⟩
            | some ds =>
              match isoP ds with
              | none => ⟨⟨m2, st.timestamp⟩, some .valueError, 1⟩
              | some t => ⟨⟨m2, some t⟩, none, 1⟩

/-! ## Catalog loaders (C6) -/

/-- A value of a catalog-entry dict: the raw string cell, or the float the
loader substituted for it. -/
inductive CsvVal where
  | str (v : Option String)
  | num (q : ℚ)
deriving DecidableEq, Repr

/-- Loop of `ECHydro.get_hydro_sites`:
`site['Latitude'] = float(site['Latitude'])` and likewise for the longitude;
any failure aborts the whole loader. -/
def hydroSitesLoop :
    List (List (String × Option String)) → List (List (String × CsvVal)) →
      Except PyErr (List (List (String × CsvVal)))
  | [], acc => .ok acc
  | site :: rest, acc =>
    match assocGet? site "Latitude" with
    | none => .error .keyError
    | some latCell =>
      match latCell with
      | none => .error .typeError
      | some latS =>
        match pyFloat? latS with
        | none => .error .valueError
        | some lat =>
          match assocGet? site "Longitude" with
          | none => .error .keyError
          | some lonCell =>
            match lonCell with
            | none => .error .typeError
            | some lonS =>
              match pyFloat? lonS with
              | none => .error .valueError
              | some lon =>
                hydroSitesLoop rest (acc ++
                  [dictSet (dictSet (site.map fun e => (e.1, CsvVal.str e.2))
                    "Latitude" (.num lat)) "Longitude" (.num lon)])

/-- `ECHydro.get_hydro_sites` on the decoded station-list CSV. -/
def ECHydro.get_hydro_sites (headerLine : String) (rows : List (List String)) :
    Except PyErr (List (List (String × CsvVal))) :=
  hydroSitesLoop (rows.map (rowDict (csvHeader headerLine))) []

/-- Loop of `ECData.get_ec_sites`: rows whose `Province Codes` is `'HEF'` are
skipped; for the rest, `float(site['Latitude'].replace('N', ''))` and
`-1 * float(site['Longitude'].replace('W', ''))` are substituted into the
dict, and any failure aborts the whole loader. -/
def ecSitesLoop :
    List (List (String × Option String)) → List (List (String × CsvVal)) →
      Except PyErr (List (List (String × CsvVal)))
  | [], acc => .ok acc
  | site :: rest, acc =>
    match assocGet? site "Province Codes" with
    | none => .error .keyError
    | some pcell =>
      if pcell = some "HEF" then ecSitesLoop rest acc
      else
        match assocGet? site "Latitude" with
        | none => .error .keyError
        | some latCell =>
          match latCell with
          | none => .error .attrError
          | some latS =>
            match pyFloat? (replaceAll latS "N" "") with
            | none => .error .valueError
            | some lat =>
              match assocGet? site "Longitude" with
              | none => .error .keyError
              | some lonCell =>
                match lonCell with
                | none => .error .attrError
                | some lonS =>
                  match pyFloat? (replaceAll lonS "W" "") with
                  | none => .error .valueError
                  | some lon =>
                    ecSitesLoop rest (acc ++
                      [dictSet (dictSet (site.map fun e => (e.1, CsvVal.str e.2))
                        "Latitude" (.num lat)) "Longitude" (.num (-1 * lon))])

/-- `ECData.get_ec_sites` on the site-list CSV (header as `csv.DictReader`
reads it after the skipped first line, then the data rows). -/
def ECData.get_ec_sites (header : List String) (rows : List (List String)) :
    Except PyErr (List (List (String × CsvVal))) :=
  ecSitesLoop (rows.map (rowDict header)) []

/-- Region loop of `ECData.get_aqhi_regions` for one administrative zone:
mandatory attribute lookups raise `KeyError`, the two `float` conversions
raise `ValueError` on malformed text, child elements are added by tag, and
the zone attributes are merged last. -/
def aqhiRegionLoop (regionNameTag : String) (zoneAbbr zoneName : String) :
    List XmlElem → List (List (String × CsvVal)) →
      Except PyErr (List (List (String × CsvVal)))
  | [], acc => .ok acc
  | region :: rest, acc =>
    match assocGet? region.attrib regionNameTag with
    | none => .error .keyError
    | some rname =>
      match assocGet? region.attrib "cgndb" with
      | none => .error .keyError
      | some cgndb =>
        match assocGet? region.attrib "latitude" with
        | none => .error .keyError
        | some latS =>
          match pyFloat? latS with
          | none => .error .valueError
          | some lat =>
            match assocGet? region.attrib "longitude" with
            | none => .error .keyError
            | some lonS =>
              match pyFloat? lonS with
              | none => .error .valueError
              | some lon =>
                let base : List (String × CsvVal) :=
                  [("region_name", .str (some rname)), ("cgndb", .str (some cgndb)),
                   ("latitude", .num lat), ("longitude", .num lon)]
                let withChildren := region.children.foldl
                  (fun d c => dictSet d c.tag (.str c.text)) base
                let merged := dictSet (dictSet withChildren
                  "abbreviation" (.str (some zoneAbbr)))
                  "zone_name" (.str (some zoneName))
                aqhiRegionLoop regionNameTag zoneAbbr zoneName rest (acc ++ [merged])

/-- Zone loop of `ECData.get_aqhi_regions`. -/
def aqhiZoneLoop (zoneNameTag regionNameTag : String) :
    List XmlElem → List (List (String × CsvVal)) →
      Except PyErr (List (List (String × CsvVal)))
  | [], acc => .ok acc
  | zone :: rest, acc =>
    match assocGet? zone.attrib "abreviation" with
    | none => .error .keyError
    | some abbr =>
      match assocGet? zone.attrib zoneNameTag with
      | none => .error .keyError
      | some zname =>
        match aqhiRegionLoop regionNameTag abbr zname
            (zone.findall [ps "regionList", ps "region"]) acc with
        | .error e => .error e
        | .ok acc' => aqhiZoneLoop zoneNameTag regionNameTag rest acc'

/-- `ECData.get_aqhi_regions` on the parsed region-list document. -/
def ECData.get_aqhi_regions (zoneNameTag regionNameTag : String) (doc : XmlElem) :
    Except PyErr (List (List (String × CsvVal))) :=
  aqhiZoneLoop zoneNameTag regionNameTag (doc.findall [ps "EC_administrativeZone"]) []

/-! ## ECAQHI fetches -/

/-- Result of one `ECAQHI` fetch. -/
structure AqhiRes where
  aqhi : AqhiDictState
  err : Option PyErr
  gets : Nat
deriving DecidableEq, Repr

/-- `ECAQHI.fetch_new_observation`: both extractions are guarded by explicit
`is not None` checks, so any parsed document yields an error-free result. -/
def ECAQHI.fetch_new_observation (st : AqhiDictState) (inp : Option XmlElem) :
    AqhiRes :=
  match inp with
  | none => ⟨st, some .transport, 1⟩
  | some doc =>
    let cur : Option String :=
      match doc.find [ps "airQualityHealthIndex"] with
      | some el => el.text
      | none => none
    let utc : Option String :=
      match doc.find [ps "dateStamp", ps "UTCStamp"] with
      | some el => el.text
      | none => none
    ⟨{ st with current := some cur, utc_time := some utc }, none, 1⟩

/-- `ECAQHI.fetch_new_forecast` (the same loops as phase 4 of
`ECData.update`). -/
def ECAQHI.fetch_new_forecast (langAbr : String) (st : AqhiDictState)
    (inp : Option XmlElem) : AqhiRes :=
  match aqhiFcstPhase langAbr st inp with
  | (aq, e) => ⟨aq, e, 1⟩

/-! ## HTTP response cache (C10) -/

/-- Total order used to model Python `sorted(params.items())` on string
pairs (tuple lexicographic order). -/
def pairLe (a b : String × String) : Prop :=
  a.1 < b.1 ∨ (a.1 = b.1 ∧ a.2 ≤ b.2)

instance : DecidableRel pairLe := fun a b => by
  unfold pairLe
  infer_instance

instance : IsTotal (String × String) pairLe := by
  constructor
  intro a b
  rcases lt_trichotomy a.1 b.1 with h | h | h
  · exact Or.inl (Or.inl h)
  · rcases le_total a.2 b.2 with h2 | h2
    · exact Or.inl (Or.inr ⟨h, h2⟩)
    · exact Or.inr (Or.inr ⟨h.symm, h2⟩)
  · exact Or.inr (Or.inl h)

instance : IsTrans (String × String) pairLe := by
  constructor
  rintro a b c (h1 | ⟨h1, h1'⟩) (h2 | ⟨h2, h2'⟩)
  · exact Or.inl (h1.trans h2)
  · exact Or.inl (h2 ▸ h1)
  · exact Or.inl (h1 ▸ h2)
  · exact Or.inr ⟨h1.trans h2, h1'.trans h2'⟩

instance : IsAntisymm (String × String) pairLe := by
  constructor
  rintro a b (h1 | ⟨h1, h1'⟩) (h2 | ⟨h2, h2'⟩)
  · exact absurd (h1.trans h2) (lt_irrefl _)
  · rw [h2] at h1
    exact absurd h1 (lt_irrefl _)
  · rw [h1] at h2
    exact absurd h2 (lt_irrefl _)
  · exact Prod.ext h1 (le_antisymm h1' h2')

/-- `tuple(sorted(params.items()))`: Python `sorted` returns the unique
permutation ordered by `pairLe` (antisymmetric and total), modelled by
insertion sort. -/
def canonParams (params : List (String × String)) : List (String × String) :=
  List.insertionSort pairLe params

/-- A cache key: `(url, tuple(sorted(params.items())))`. -/
abbrev CacheKey : Type := String × List (String × String)

/-- `CacheClientSession._flush_cache`: drop every entry whose expiry instant
lies strictly before `now`. -/
def flushCache {α : Type _} (now : Nat) (cache : List (CacheKey × (Nat × α))) :
    List (CacheKey × (Nat × α)) :=
  cache.filter fun e => decide (now ≤ e.2.1)

/-- `CacheClientSession.get`: flush, look up `(url, sorted params)`, and on a
miss perform the underlying request (`netResp`) and store it with expiry
`now + cacheTime`.  Returns the new cache, the response handed back, and
whether the underlying `ClientSession.get` was invoked. -/
def cacheGet {α : Type _} (now cacheTime : Nat) (url : String)
    (params : List (String × String)) (cache : List (CacheKey × (Nat × α)))
    (netResp : α) : List (CacheKey × (Nat × α)) × α × Bool :=
  let flushed := flushCache now cache
  let key : CacheKey := (url, canonParams params)
  match assocGet? flushed key with
  | some r => (flushed, r.2, false)
  | none => (dictSet flushed key (now + cacheTime, netResp), netResp, true)

/-! ## Theorems -/

theorem closestRecord_spec {α D : Type _} [LinearOrder D] (key : α → D)
    (sites : List α) (h : sites ≠ []) :
    ∃ c, closestRecord key sites = some c ∧ c ∈ sites ∧
      (∀ s ∈ sites, key c ≤ key s) ∧
      ∃ l₁ l₂, sites = l₁ ++ c :: l₂ ∧ ∀ s ∈ l₁, key c < key s := by
  match sites with
  | [] => exact absurd rfl h
  | x :: xs =>
    exact ⟨pyMin key x xs, rfl, pyMin_mem key xs x,
      fun s hs => pyMin_le key xs x s hs, pyMin_first key xs x⟩

/-- C1: for every non-empty catalog and every target, the nearest-station
resolvers (`ECHydro.closest_site` scanning the hydrometric catalog and
returning the record, `ECData.closest_site` scanning the citypage catalog and
returning the formatted identifier) select a record of the catalog whose
distance to the target is ≤ the distance of every other record, and that
record is the first one achieving the minimum in catalog order (every record
strictly before it has strictly larger distance). -/
theorem claim_C1_closest_site_minimal {D : Type _} [LinearOrder D]
    (dist : ℚ × ℚ → ℚ × ℚ → D) (lat lon : ℚ) :
    (∀ sites : List HydroSite, sites ≠ [] →
      ∃ c, ECHydro.closest_site dist lat lon sites = some c ∧ c ∈ sites ∧
        (∀ s ∈ sites, dist (lat, lon) (c.Latitude, c.Longitude) ≤
          dist (lat, lon) (s.Latitude, s.Longitude)) ∧
        ∃ l₁ l₂, sites = l₁ ++ c :: l₂ ∧
          ∀ s ∈ l₁, dist (lat, lon) (c.Latitude, c.Longitude) <
            dist (lat, lon) (s.Latitude, s.Longitude)) ∧
    (∀ sites : List EcSite, sites ≠ [] →
      ∃ c, ECData.closest_site dist lat lon sites =
          some (c.ProvinceCodes ++ "/" ++ c.Codes) ∧ c ∈ sites ∧
        (∀ s ∈ sites, dist (lat, lon) (c.Latitude, c.Longitude) ≤
          dist (lat, lon) (s.Latitude, s.Longitude)) ∧
        ∃ l₁ l₂, sites = l₁ ++ c :: l₂ ∧
          ∀ s ∈ l₁, dist (lat, lon) (c.Latitude, c.Longitude) <
            dist (lat, lon) (s.Latitude, s.Longitude)) := by
  constructor
  · intro sites h
    obtain ⟨c, hc, hmem, hmin, hfirst⟩ :=
      closestRecord_spec (fun s : HydroSite => dist (lat, lon) (s.Latitude, s.Longitude))
        sites h
    exact ⟨c, hc, hmem, hmin, hfirst⟩
  · intro sites h
    obtain ⟨c, hc, hmem, hmin, hfirst⟩ :=
      closestRecord_spec (fun s : EcSite => dist (lat, lon) (s.Latitude, s.Longitude))
        sites h
    refine ⟨c, ?_, hmem, hmin, hfirst⟩
    simp [ECData.closest_site, hc]

/-- Squared planar distance: one admissible instantiation of the external
distance primitive for concrete checks. -/
def sqDist : ℚ × ℚ → ℚ × ℚ → ℚ :=
  fun a b => (a.1 - b.1) ^ 2 + (a.2 - b.2) ^ 2

/-- Catalog record A of the concrete scenario of the spec. -/
def siteA : EcSite := ⟨"ON", "s0000430", 45, -75⟩

/-- Catalog record B of the concrete scenario of the spec. -/
def siteB : EcSite := ⟨"QC", "s0000620", 46, -76⟩

theorem claim_C1_witness :
    ∃ c : EcSite, ECData.closest_site sqDist (4501 / 100) (-7501 / 100) [siteA, siteB] =
        some (c.ProvinceCodes ++ "/" ++ c.Codes) ∧ c ∈ [siteA, siteB] ∧
      (∀ s ∈ [siteA, siteB], sqDist (4501 / 100, -7501 / 100) (c.Latitude, c.Longitude) ≤
        sqDist (4501 / 100, -7501 / 100) (s.Latitude, s.Longitude)) ∧
      ∃ l₁ l₂, [siteA, siteB] = l₁ ++ c :: l₂ ∧
        ∀ s ∈ l₁, sqDist (4501 / 100, -7501 / 100) (c.Latitude, c.Longitude) <
          sqDist (4501 / 100, -7501 / 100) (s.Latitude, s.Longitude) :=
  (claim_C1_closest_site_minimal sqDist (4501 / 100) (-7501 / 100)).2 [siteA, siteB]
    (by simp)

/-- C2: one poll (`update`) drains at most one bus event, and the callback
fetches at most once per message (`ECHydro.process_message` fetches on a
match; `ECAQHI.process_message` picks one branch of its `if`/`elif`), so at
most one fetch is triggered per poll no matter how many matching messages are
queued. -/
theorem claim_C2_at_most_one_fetch_per_poll (prov station zone region : String)
    (queue : List String) :
    ECHydro.update_fetch_count prov station queue ≤ 1 ∧
    ECAQHI.update_fetch_count zone region queue ≤ 1 := by
  constructor
  · unfold ECHydro.update_fetch_count
    cases hq : queue.head? with
    | none => simp
    | some body =>
      by_cases h : ECHydro.process_message_fetches prov station body <;> simp [h]
  · unfold ECAQHI.update_fetch_count
    cases hq : queue.head? with
    | none => simp
    | some body =>
      unfold ECAQHI.process_message_fetch_count
      by_cases h1 : strContains body (aqhiObservationMessage zone region) <;>
        by_cases h2 : strContains body (aqhiForecastMessage zone region) <;>
          simp [h1, h2]

/-- C8: `ECHydro.process_message` triggers a fetch exactly when the formatted
hydrometric path is contained in the body (substring containment, no pattern
matching); a body built from the identical identifiers always matches
(round trip), and a concrete body holding only an unrelated station's path
does not match. -/
theorem claim_C8_match_contract :
    (∀ prov station body : String,
      ECHydro.process_message_fetches prov station body =
        strContains body (hydroMessage prov station)) ∧
    (∀ prov station : String,
      ECHydro.process_message_fetches prov station (hydroMessage prov station) = true) ∧
    ECHydro.process_message_fetches "QC" "01AB002" (hydroMessage "ON" "02KF005") = false := by
  refine ⟨fun _ _ _ => rfl, fun p s => ?_, by decide⟩
  unfold ECHydro.process_message_fetches strContains
  exact containsSub_refl (hydroMessage p s).data

theorem isPrefixOf_ne_nil {pat l : List Char} (hp : pat ≠ [])
    (h : pat.isPrefixOf l = true) : l ≠ [] := by
  intro hl
  subst hl
  cases pat with
  | nil => exact hp rfl
  | cons c t => simp [List.isPrefixOf] at h

theorem activeSearch_intro (title kw stop : String) (hkw : kw.data ≠ [])
    (hc : strContains title kw = true) (hs : strContains title stop = false) :
    activeSearch title kw stop = true := by
  unfold strContains at hc hs
  rw [containsSub_iff] at hc
  obtain ⟨i, hi⟩ := hc
  have hlen : i ≤ title.data.length := by
    by_contra hgt
    push_neg at hgt
    rw [List.drop_eq_nil_of_le (le_of_lt hgt)] at hi
    exact isPrefixOf_ne_nil hkw hi rfl
  unfold activeSearch
  rw [List.any_eq_true]
  refine ⟨i, List.mem_range.mpr (by omega), ?_⟩
  rw [Bool.and_eq_true]
  refine ⟨hi, ?_⟩
  have hdrop : containsSub (title.data.drop (i + kw.length)) stop.data = false := by
    cases hcc : containsSub (title.data.drop (i + kw.length)) stop.data with
    | false => rfl
    | true => exact absurd (containsSub_of_drop _ _ _ hcc) (by simp [hs])
  simp [hdrop]

theorem activeSearch_elim (title kw stop : String)
    (h : activeSearch title kw stop = true) : strContains title kw = true := by
  unfold activeSearch at h
  rw [List.any_eq_true] at h
  obtain ⟨i, -, hi⟩ := h
  rw [Bool.and_eq_true] at hi
  unfold strContains
  rw [containsSub_iff]
  exact ⟨i, hi.1⟩

theorem activeSearch_false_of_not_contains (title kw stop : String)
    (h : strContains title kw = false) : activeSearch title kw stop = false := by
  cases hcc : activeSearch title kw stop with
  | false => rfl
  | true => exact absurd (activeSearch_elim title kw stop hcc) (by simp [h])

/-- C7 counterexample: the five patterns are not mutually exclusive.  A title
announcing a watch upgraded to a warning matches both the `warnings` and the
`watches` pattern (and the classification loop files it under both), and a
title combining an ended warning with a new warning matches both `warnings`
and `endings` — refuting both the general exclusivity and the specific
active-versus-endings exclusivity of the claim. -/
theorem claim_C7_counterexample :
    matchingCategories Lang.english "TORNADO WATCH UPGRADED TO TORNADO WARNING" =
      ["warnings", "watches"] ∧
    matchingCategories Lang.english "TORNADO WARNING ENDED. TORNADO WARNING" =
      ["warnings", "endings"] := by
  constructor <;> decide

/-- C7 amended: the patterns are mutually exclusive only in restricted
circumstances: an English title that contains `WARNING` but none of the other
category keywords and no `ENDED` matches exactly the `warnings` pattern, so
classification places it in that single category. -/
theorem claim_C7_amended (title : String)
    (hw : strContains title "WARNING" = true)
    (h1 : strContains title "WATCH" = false)
    (h2 : strContains title "ADVISORY" = false)
    (h3 : strContains title "STATEMENT" = false)
    (h4 : strContains title "ENDED" = false) :
    matchingCategories Lang.english title = ["warnings"] := by
  have e1 : activeSearch title "WARNING" "ENDED" = true :=
    activeSearch_intro title "WARNING" "ENDED" (by decide) hw h4
  have e2 : activeSearch title "WATCH" "ENDED" = false :=
    activeSearch_false_of_not_contains title "WATCH" "ENDED" h1
  have e3 : activeSearch title "ADVISORY" "ENDED" = false :=
    activeSearch_false_of_not_contains title "ADVISORY" "ENDED" h2
  have e4 : activeSearch title "STATEMENT" "ENDED" = false :=
    activeSearch_false_of_not_contains title "STATEMENT" "ENDED" h3
  simp [matchingCategories, alerts_meta, alertPatSearch, AlertMetaEntry.get,
    List.filter, e1, e2, e3, e4, h4]

theorem claim_C7_amended_witness :
    strContains "TORNADO WARNING" "WARNING" = true ∧
    matchingCategories Lang.english "TORNADO WARNING" = ["warnings"] :=
  ⟨by decide,
    claim_C7_amended "TORNADO WARNING" (by decide) (by decide) (by decide)
      (by decide) (by decide)⟩

/-- A citypage document with complete metadata, a text summary and one active
warning event carrying an alert-page URL. -/
def cityDocWarn : XmlElem :=
  .node "siteData" [] none
    [.node "location" [] none [.node "name" [] (some "Ottawa") []],
     .node "currentConditions" [] none
       [.node "dateTime" [] none [.node "timeStamp" [] (some "20240101120000") []],
        .node "station" [] (some "XYZ") []],
     .node "forecastGroup" [] none
       [.node "forecast" [] none
         [.node "period" [("textForecastName", "Today")] (some "Today") [],
          .node "textSummary" [] (some "Sunny") [],
          .node "temperatures" [] none
            [.node "temperature" [("class", "high")] (some "20") []]]],
     .node "warnings" [("url", "http://e")] none
       [.node "event" [("description", " TORNADO WARNING ")] none []]]

/-- An alert already stored before the failing poll. -/
def oldAlert : Alert := ⟨"Old Warning", "d", "x"⟩

/-- Prior state of the C3 scenario: one alert saved under `warnings`. -/
def st0C3 : ECDataState :=
  { metadata := [], conditions := [],
    alerts := [("warnings", ⟨[oldAlert], "Warnings"⟩)],
    daily_forecasts := [], hourly_forecasts := [], aqhi := {},
    forecast_time := some "" }

/-- Inputs of the C3 scenario: the citypage document arrives, the alert-detail
page retrieval fails. -/
def inpC3 : UpdateInputs :=
  { citypage := some cityDocWarn, alertHtml := none, aqhiObs := none,
    aqhiFcst := none }

/-- C3 counterexample: when the alert-detail retrieval of the alerts sub-feed
fails, the fetch raises — but the alert categories were already reset, so the
previously stored alert values are lost instead of being retained. -/
theorem claim_C3_counterexample :
    (ECData.update Lang.english st0C3 inpC3).err = some PyErr.transport ∧
    assocGet? (ECData.update Lang.english st0C3 inpC3).state.alerts "warnings" =
      some ⟨[], "Warnings"⟩ ∧
    assocGet? st0C3.alerts "warnings" = some ⟨[oldAlert], "Warnings"⟩ := by
  refine ⟨by decide, by decide, by decide⟩

theorem aqhiObsPhase_forecasts (lang : Lang) (aq : AqhiDictState)
    (cs : List (String × Condition)) (inp : Option XmlElem) :
    (aqhiObsPhase lang aq cs inp).1.forecasts = aq.forecasts := by
  cases inp <;> simp [aqhiObsPhase]

/-- C3 amended: for every sub-feed except alerts, a failed retrieval or
document-level parse leaves the prior values untouched: a citypage failure
leaves the whole `ECData` state unchanged, a failed AQHI observation
retrieval leaves the `aqhi` dict unchanged, a failed AQHI forecast retrieval
leaves `aqhi['forecasts']` unchanged, and a failed hydrometric retrieval
leaves the `ECHydro` state unchanged.  The exception is the alerts sub-feed,
whose categories are reset before the alert-detail retrieval fails. -/
theorem ECData_update_aqhi_of_obs_none (lang : Lang) (st : ECDataState)
    (inp : UpdateInputs) (h : inp.aqhiObs = none) :
    (ECData.update lang st inp).state.aqhi = st.aqhi := by
  unfold ECData.update
  cases hcp : inp.citypage with
  | none => rfl
  | some doc =>
    rw [h]
    dsimp only
    rcases hc : cityPhase lang doc inp.alertHtml st.metadata st.conditions st.alerts
      with ⟨md, cs, al, e, g⟩
    cases e with
    | some e => simp
    | none =>
      rcases hf : forecastPhase doc with ⟨ftime, dl, hl, e2⟩
      cases e2 with
      | some e2 => simp
      | none => simp [aqhiObsPhase]

theorem ECData_update_aqhi_forecasts_of_fcst_none (lang : Lang) (st : ECDataState)
    (inp : UpdateInputs) (h : inp.aqhiFcst = none) :
    (ECData.update lang st inp).state.aqhi.forecasts = st.aqhi.forecasts := by
  unfold ECData.update
  cases hcp : inp.citypage with
  | none => rfl
  | some doc =>
    dsimp only
    rcases hc : cityPhase lang doc inp.alertHtml st.metadata st.conditions st.alerts
      with ⟨md, cs, al, e, g⟩
    cases e with
    | some e => simp
    | none =>
      rcases hf : forecastPhase doc with ⟨ftime, dl, hl, e2⟩
      cases e2 with
      | some e2 => simp
      | none =>
        dsimp only
        rcases ho : aqhiObsPhase lang st.aqhi cs inp.aqhiObs with ⟨aq, cs2, e3⟩
        have hfc := aqhiObsPhase_forecasts lang st.aqhi cs inp.aqhiObs
        rw [ho] at hfc
        cases e3 with
        | some e3 => simpa using hfc
        | none =>
          rw [h]
          simpa [aqhiFcstPhase] using hfc

/-- C3 amended: for every sub-feed except alerts, a failed retrieval or
document-level parse leaves the prior values untouched: a citypage failure
leaves the whole `ECData` state unchanged, a failed AQHI observation
retrieval leaves the `aqhi` dict unchanged, a failed AQHI forecast retrieval
leaves `aqhi[\'forecasts\']` unchanged, and a failed hydrometric retrieval
leaves the `ECHydro` state unchanged.  The exception is the alerts sub-feed,
whose categories are reset before the alert-detail retrieval fails. -/
theorem claim_C3_amended (lang : Lang) (st : ECDataState) (inp : UpdateInputs)
    (isoP : String → Option Int) (hst : HydroState)
    (hinp : Option (String × List (List String))) :
    (inp.citypage = none → ECData.update lang st inp = ⟨st, some PyErr.transport, 1⟩) ∧
    (inp.aqhiObs = none → (ECData.update lang st inp).state.aqhi = st.aqhi) ∧
    (inp.aqhiFcst = none →
      (ECData.update lang st inp).state.aqhi.forecasts = st.aqhi.forecasts) ∧
    (hinp = none → ECHydro.fetch_new_data isoP hst hinp = ⟨hst, some PyErr.transport, 1⟩) := by
  refine ⟨?_, fun h => ECData_update_aqhi_of_obs_none lang st inp h,
    fun h => ECData_update_aqhi_forecasts_of_fcst_none lang st inp h, ?_⟩
  · intro h
    simp [ECData.update, h]
  · intro h
    simp [ECHydro.fetch_new_data, h]

/-- Inputs with every retrieval failing. -/
def inpAllNone : UpdateInputs :=
  { citypage := none, alertHtml := none, aqhiObs := none, aqhiFcst := none }

/-- A trivial stand-in for `dateutil.parser.isoparse`. -/
def isoPZero : String → Option Int := fun _ => some 0

/-- An empty hydrometric state. -/
def hst0 : HydroState := ⟨[], none⟩

theorem claim_C3_amended_witness :
    ECData.update Lang.english st0C3 inpAllNone = ⟨st0C3, some PyErr.transport, 1⟩ ∧
    (ECData.update Lang.english st0C3 inpAllNone).state.aqhi = st0C3.aqhi ∧
    (ECData.update Lang.english st0C3 inpAllNone).state.aqhi.forecasts =
      st0C3.aqhi.forecasts ∧
    ECHydro.fetch_new_data isoPZero hst0 none = ⟨hst0, some PyErr.transport, 1⟩ := by
  have h := claim_C3_amended Lang.english st0C3 inpAllNone isoPZero hst0 none
  exact ⟨h.1 rfl, h.2.1 rfl, h.2.2.1 rfl, h.2.2.2 rfl⟩

/-- A citypage document whose only forecast has no `temperatures` element. -/
def cityDocNoTemp : XmlElem :=
  .node "siteData" [] none
    [.node "location" [] none [.node "name" [] (some "Ottawa") []],
     .node "currentConditions" [] none
       [.node "dateTime" [] none [.node "timeStamp" [] (some "20240101120000") []],
        .node "station" [] (some "XYZ") []],
     .node "forecastGroup" [] none
       [.node "forecast" [] none
         [.node "period" [("textForecastName", "Today")] (some "Today") [],
          .node "textSummary" [] (some "Sunny") []]]]

/-- A daily forecast stored before the C4 poll. -/
def dOld : DailyForecast := ⟨some "Yesterday", none, none, none, none⟩

/-- Prior state of the C4 scenario. -/
def st0C4 : ECDataState :=
  { metadata := [], conditions := [], alerts := [], daily_forecasts := [dOld],
    hourly_forecasts := [], aqhi := {}, forecast_time := some "" }

/-- Inputs of the C4 scenario. -/
def inpC4 : UpdateInputs :=
  { citypage := some cityDocNoTemp, alertHtml := none, aqhiObs := none,
    aqhiFcst := none }

/-- C4 counterexample: a successfully retrieved and parsed citypage document
whose forecast lacks the optional paired temperatures makes `ECData.update`
raise `AttributeError` (`find(...).attrib` on `None`) instead of recording an
absent marker — the exception propagates and the daily series is left
cleared. -/
theorem claim_C4_counterexample :
    (ECData.update Lang.english st0C4 inpC4).err = some PyErr.attrError ∧
    (ECData.update Lang.english st0C4 inpC4).state.daily_forecasts = [] ∧
    cityDocNoTemp.findtext
      [ps "forecastGroup", ps "forecast", ps "temperatures", ps "temperature"] = none := by
  refine ⟨by decide, by decide, by rfl⟩

/-- A document with none of the optional elements. -/
def emptyRootDoc : XmlElem := .node "siteData" [] none []

/-- C4 amended: the extractions guarded by explicit absence checks do behave
as the claim says: `get_condition` returns the empty partial dict (no `value`
key) whenever its element is missing, and `ECAQHI.fetch_new_observation`
never raises on a parsed document, recording `None` markers for missing
elements.  The unguarded extractions (metadata, text-summary composition,
daily-forecast temperature class, AQHI forecast attribute lookups) raise
instead. -/
theorem claim_C4_amended :
    (∀ (doc : XmlElem) (meta : CondMeta), doc.find meta.xpath = none →
      get_condition doc meta = {}) ∧
    (∀ (st : AqhiDictState) (doc : XmlElem),
      (ECAQHI.fetch_new_observation st (some doc)).err = none) ∧
    (∀ (st : AqhiDictState) (doc : XmlElem),
      doc.find [ps "airQualityHealthIndex"] = none →
        (ECAQHI.fetch_new_observation st (some doc)).aqhi.current = some none) := by
  refine ⟨?_, ?_, ?_⟩
  · intro doc meta h
    simp [get_condition, h]
  · intro st doc
    simp [ECAQHI.fetch_new_observation]
  · intro st doc h
    simp [ECAQHI.fetch_new_observation, h]

theorem claim_C4_amended_witness :
    get_condition emptyRootDoc summary_meta_text_summary = {} ∧
    (ECAQHI.fetch_new_observation {} (some emptyRootDoc)).err = none ∧
    (ECAQHI.fetch_new_observation {} (some emptyRootDoc)).aqhi.current = some none :=
  ⟨claim_C4_amended.1 emptyRootDoc summary_meta_text_summary rfl,
   claim_C4_amended.2.1 {} emptyRootDoc,
   claim_C4_amended.2.2 {} emptyRootDoc rfl⟩

/-- Prior hydrometric state of the C5 scenario: both quantities present. -/
def hstC5 : HydroState :=
  ⟨[("water_level", ⟨"Water Level", 1, "m"⟩), ("discharge", ⟨"Discharge", 2, "m³/s"⟩)],
    none⟩

/-- CSV input of the C5 scenario: the latest reading has a water level but an
empty discharge cell. -/
def inpC5 : Option (String × List (List String)) :=
  some ("Date,Water Level,Discharge", [["2024-01-01T00:00:00-05:00", "3.5", ""]])

/-- C5 counterexample: after a successful `ECHydro.fetch_new_data` whose
latest reading carries no discharge value, the stale `discharge` measurement
from the previous fetch survives in the mapping — the snapshot is merged,
not fully replaced. -/
theorem claim_C5_counterexample :
    (ECHydro.fetch_new_data isoPZero hstC5 inpC5).err = none ∧
    assocGet? (ECHydro.fetch_new_data isoPZero hstC5 inpC5).state.measurements
      "discharge" = some ⟨"Discharge", 2, "m³/s"⟩ ∧
    assocGet? (rowDict (csvHeader "Date,Water Level,Discharge")
      ["2024-01-01T00:00:00-05:00", "3.5", ""]) "Discharge" = some (some "") := by
  refine ⟨rfl, rfl, rfl⟩

/-- C5 amended: `ECHydro.fetch_new_data` updates each quantity only when the
latest reading carries a non-empty value for it: on a successful fetch whose
latest reading has a water level and an empty discharge cell, the result sets
exactly the fresh water level and the timestamp, and the `discharge` entry is
whatever it was before the fetch. -/
theorem claim_C5_amended (isoP : String → Option Int) (st : HydroState)
    (headerLine : String) (rows : List (List String))
    (latest : List (String × Option String)) (w ds : String) (q : ℚ) (t : Int)
    (hl : (rows.map (rowDict (csvHeader headerLine))).getLast? = some latest)
    (hw : assocGet? latest "Water Level" = some (some w)) (hw0 : ¬(w = ""))
    (hq : pyFloat? w = some q)
    (hd : assocGet? latest "Discharge" = some (some ""))
    (hdate : assocGet? latest "Date" = some (some ds))
    (hiso : isoP ds = some t) :
    ECHydro.fetch_new_data isoP st (some (headerLine, rows)) =
      ⟨⟨dictSet st.measurements "water_level" ⟨"Water Level", q, "m"⟩, some t⟩, none, 1⟩ ∧
    assocGet? (ECHydro.fetch_new_data isoP st (some (headerLine, rows))).state.measurements
      "discharge" = assocGet? st.measurements "discharge" := by
  have hmain : ECHydro.fetch_new_data isoP st (some (headerLine, rows)) =
      ⟨⟨dictSet st.measurements "water_level" ⟨"Water Level", q, "m"⟩, some t⟩, none, 1⟩ := by
    unfold ECHydro.fetch_new_data
    dsimp only
    rw [hl]
    simp [hydroMeasStep, hw, hw0, hq, hd, hdate, hiso]
  refine ⟨hmain, ?_⟩
  rw [hmain]
  exact assocGet?_dictSet_other st.measurements "water_level" "discharge" _ (by decide)

/-- Prior state of the C5 witness. -/
def hstW5 : HydroState := ⟨[("discharge", ⟨"Discharge", 5, "m³/s"⟩)], none⟩

/-- The latest-reading dict of the C5 witness. -/
def latestW5 : List (String × Option String) :=
  [("Date", some "d1"), ("Water Level", some "2.0"), ("Discharge", some "")]

theorem pyFloat?_two : pyFloat? "2.0" = some 2 := by
  have h : pyFloat? "2.0" = some (1 * (digitsToQ ['2'] + fracToQ ['0'])) := rfl
  rw [h]
  simp only [digitsToQ, fracToQ, List.foldl_cons, List.foldl_nil, List.length_cons,
    List.length_nil]
  norm_num [show ('2'.toNat - 48 : ℕ) = 2 from rfl, show ('0'.toNat - 48 : ℕ) = 0 from rfl]

theorem claim_C5_amended_witness :
    ECHydro.fetch_new_data isoPZero hstW5 (some ("Date,Water Level,Discharge", [["d1", "2.0", ""]])) =
      ⟨⟨dictSet hstW5.measurements "water_level" ⟨"Water Level", 2, "m"⟩, some 0⟩, none, 1⟩ ∧
    assocGet? (ECHydro.fetch_new_data isoPZero hstW5
        (some ("Date,Water Level,Discharge", [["d1", "2.0", ""]]))).state.measurements
      "discharge" = assocGet? hstW5.measurements "discharge" :=
  claim_C5_amended isoPZero hstW5 "Date,Water Level,Discharge" [["d1", "2.0", ""]]
    latestW5 "2.0" "d1" 2 0 rfl rfl (by decide) pyFloat?_two rfl rfl rfl

/-- Whether an `Except` result is a success. -/
def exceptOk {ε α : Type _} : Except ε α → Bool
  | .ok _ => true
  | .error _ => false

/-- Header of the C6 hydrometric catalog fixture. -/
def hydroHeaderC6 : String := "ID,Name,Latitude,Longitude,Prov"

/-- A catalog row whose `Latitude` does not parse as a number. -/
def badRowC6 : List String := ["01AA001", "BAD", "abc", "-75.0", "ON"]

/-- A well-formed catalog row. -/
def goodRowC6 : List String := ["01AA002", "GOOD", "45.0", "-75.0", "ON"]

/-- C6 counterexample: a catalog containing one entry with a malformed
`Latitude` and one well-formed entry makes `ECHydro.get_hydro_sites` raise
`ValueError` for the whole call — the bad entry is not excluded and the
well-formed remainder (which alone loads fine) is not returned. -/
theorem claim_C6_counterexample :
    ECHydro.get_hydro_sites hydroHeaderC6 [badRowC6, goodRowC6] =
      .error PyErr.valueError ∧
    exceptOk (ECHydro.get_hydro_sites hydroHeaderC6 [goodRowC6]) = true ∧
    pyFloat? "abc" = none := by
  refine ⟨rfl, rfl, rfl⟩

/-- C6 amended: a catalog entry whose required numeric field fails to parse
makes the whole loader raise at that entry (no catalog is returned at all),
in each of the three loaders; entries are never included with placeholders,
and the only per-entry exclusion the loaders perform is the `'HEF'`
province-code filter of `get_ec_sites`. -/
theorem claim_C6_amended :
    (∀ (site : List (String × Option String)) (rest : List (List (String × Option String)))
        (acc : List (List (String × CsvVal))) (s : String),
      assocGet? site "Latitude" = some (some s) → pyFloat? s = none →
        hydroSitesLoop (site :: rest) acc = .error PyErr.valueError) ∧
    (∀ (site : List (String × Option String)) (rest : List (List (String × Option String)))
        (acc : List (List (String × CsvVal))) (pv : Option String) (s : String),
      assocGet? site "Province Codes" = some pv → ¬(pv = some "HEF") →
      assocGet? site "Latitude" = some (some s) → pyFloat? (replaceAll s "N" "") = none →
        ecSitesLoop (site :: rest) acc = .error PyErr.valueError) ∧
    (∀ (region : XmlElem) (rest : List XmlElem)
        (regionNameTag zoneAbbr zoneName : String)
        (acc : List (List (String × CsvVal))) (rn cg s : String),
      assocGet? region.attrib regionNameTag = some rn →
      assocGet? region.attrib "cgndb" = some cg →
      assocGet? region.attrib "latitude" = some s → pyFloat? s = none →
        aqhiRegionLoop regionNameTag zoneAbbr zoneName (region :: rest) acc =
          .error PyErr.valueError) := by
  refine ⟨?_, ?_, ?_⟩
  · intro site rest acc s h1 h2
    simp [hydroSitesLoop, h1, h2]
  · intro site rest acc pv s h1 h2 h3 h4
    simp [ecSitesLoop, h1, h2, h3, h4]
  · intro region rest regionNameTag zoneAbbr zoneName acc rn cg s h1 h2 h3 h4
    simp [aqhiRegionLoop, h1, h2, h3, h4]

/-- The bad region element of the C6 witness. -/
def badRegion : XmlElem :=
  .node "region" [("nameEn", "X"), ("cgndb", "ABC"), ("latitude", "x"),
    ("longitude", "0")] none []

theorem claim_C6_amended_witness :
    hydroSitesLoop [rowDict (csvHeader hydroHeaderC6) badRowC6] [] =
      .error PyErr.valueError ∧
    ecSitesLoop [[("Province Codes", some "ON"), ("Latitude", some "abc"),
      ("Longitude", some "75.0W")]] [] = .error PyErr.valueError ∧
    aqhiRegionLoop "nameEn" "on" "Ontario" [badRegion] [] = .error PyErr.valueError :=
  ⟨claim_C6_amended.1 (rowDict (csvHeader hydroHeaderC6) badRowC6) [] [] "abc" rfl rfl,
   claim_C6_amended.2.1 [("Province Codes", some "ON"), ("Latitude", some "abc"),
     ("Longitude", some "75.0W")] [] [] (some "ON") "abc" rfl (by decide) rfl rfl,
   claim_C6_amended.2.2 badRegion [] "nameEn" "on" "Ontario" [] "X" "ABC" "x"
     rfl rfl rfl rfl⟩

/-- A citypage document that makes the whole `update` succeed. -/
def cityDocFull : XmlElem :=
  .node "siteData" [] none
    [.node "location" [] none [.node "name" [] (some "Ottawa") []],
     .node "currentConditions" [] none
       [.node "dateTime" [] none [.node "timeStamp" [] (some "20240101120000") []],
        .node "station" [] (some "XYZ") []],
     .node "forecastGroup" [] none
       [.node "forecast" [] none
         [.node "period" [("textForecastName", "Today")] (some "Today") [],
          .node "textSummary" [] (some "Sunny") [],
          .node "temperatures" [] none
            [.node "temperature" [("class", "high")] (some "20") []]]]]

/-- An AQHI observation document. -/
def aqhiObsDoc : XmlElem :=
  .node "aqhi" [] none
    [.node "airQualityHealthIndex" [] (some "3") [],
     .node "dateStamp" [] none [.node "UTCStamp" [] (some "t") []]]

/-- An (empty) AQHI forecast document. -/
def aqhiFcstDoc : XmlElem := .node "aqhi" [] none []

/-- Inputs on which `update` fully succeeds. -/
def inpOk : UpdateInputs :=
  { citypage := some cityDocFull, alertHtml := none, aqhiObs := some aqhiObsDoc,
    aqhiFcst := some aqhiFcstDoc }

/-- An initial `ECData` state. -/
def st0Empty : ECDataState :=
  { metadata := [], conditions := [], alerts := [], daily_forecasts := [],
    hourly_forecasts := [], aqhi := {}, forecast_time := some "" }

/-- C9: when the rate limit is exceeded, the decorated `update` returns
`None` having performed no HTTP request and leaving the whole state
unchanged; and since a successful `update` also returns `None`, the return
value of a rate-limited skip is identical to that of a successful refresh. -/
theorem claim_C9_ratelimit_skip :
    (∀ (lang : Lang) (st : ECDataState) (inp : UpdateInputs),
      ECData.update_wrapped true lang st inp = ⟨st, none, some (), 0⟩) ∧
    (∀ (lang : Lang) (st : ECDataState) (inp : UpdateInputs),
      (ECData.update lang st inp).err = none →
        (ECData.update_wrapped false lang st inp).ret =
          (ECData.update_wrapped true lang st inp).ret ∧
        (ECData.update_wrapped false lang st inp).raised = none) := by
  refine ⟨fun lang st inp => rfl, fun lang st inp h => ?_⟩
  constructor <;> simp [ECData.update_wrapped, h]

theorem claim_C9_witness :
    (ECData.update Lang.english st0Empty inpOk).err = none ∧
    ECData.update_wrapped true Lang.english st0Empty inpOk =
      ⟨st0Empty, none, some (), 0⟩ ∧
    (ECData.update_wrapped false Lang.english st0Empty inpOk).ret =
      (ECData.update_wrapped true Lang.english st0Empty inpOk).ret :=
  ⟨rfl, claim_C9_ratelimit_skip.1 Lang.english st0Empty inpOk,
   (claim_C9_ratelimit_skip.2 Lang.english st0Empty inpOk rfl).1⟩

theorem canonParams_perm {l₁ l₂ : List (String × String)} (h : l₁.Perm l₂) :
    canonParams l₁ = canonParams l₂ :=
  List.eq_of_perm_of_sorted
    ((List.perm_insertionSort pairLe l₁).trans
      (h.trans (List.perm_insertionSort pairLe l₂).symm))
    (List.sorted_insertionSort pairLe l₁) (List.sorted_insertionSort pairLe l₂)

theorem dictSet_eq_append {κ α : Type _} [DecidableEq κ] {d : List (κ × α)} {k : κ}
    (v : α) (h : assocGet? d k = none) : dictSet d k v = d ++ [(k, v)] := by
  induction d with
  | nil => simp [dictSet]
  | cons e rest ih =>
    obtain ⟨k', v'⟩ := e
    by_cases hk : k' = k
    · subst hk
      simp [assocGet?] at h
    · have h' : assocGet? rest k = none := by simpa [assocGet?, hk] using h
      simp [dictSet, hk, ih h']

theorem assocGet?_filter_none {κ α : Type _} [DecidableEq κ] (p : κ × α → Bool)
    {d : List (κ × α)} {k : κ} (h : assocGet? d k = none) :
    assocGet? (d.filter p) k = none := by
  induction d with
  | nil => simp [assocGet?]
  | cons e rest ih =>
    obtain ⟨k', v'⟩ := e
    by_cases hk : k' = k
    · subst hk
      simp [assocGet?] at h
    · have h' : assocGet? rest k = none := by simpa [assocGet?, hk] using h
      by_cases hp : p (k', v') <;> simp [List.filter, hp, assocGet?, hk, ih h']

theorem assocGet?_append_right {κ α : Type _} [DecidableEq κ] {d : List (κ × α)}
    (l : List (κ × α)) {k : κ} (h : assocGet? d k = none) :
    assocGet? (d ++ l) k = assocGet? l k := by
  induction d with
  | nil => simp
  | cons e rest ih =>
    obtain ⟨k', v'⟩ := e
    by_cases hk : k' = k
    · subst hk
      simp [assocGet?] at h
    · have h' : assocGet? rest k = none := by simpa [assocGet?, hk] using h
      simp [assocGet?, hk, ih h']

/-- C10: with the first call a cache miss, a second `CacheClientSession.get`
for the same url and a params mapping that is a permutation (equal as a set
of key-value pairs) of the first one, made at any time up to the first
entry's expiry, returns the very response stored by the first call without
invoking the underlying session get; and flushing keeps only entries whose
expiry has not passed, so no returned entry is past its expiry. -/
theorem claim_C10_cache_hit {α : Type _} (cacheTime t₀ t₁ : Nat) (url : String)
    (params params' : List (String × String))
    (cache : List (CacheKey × (Nat × α))) (r₁ r₂ : α)
    (hperm : params'.Perm params)
    (hmiss : assocGet? (flushCache t₀ cache) (url, canonParams params) = none)
    (hfresh : t₁ ≤ t₀ + cacheTime) :
    (cacheGet t₀ cacheTime url params cache r₁).2.2 = true ∧
    (cacheGet t₀ cacheTime url params cache r₁).2.1 = r₁ ∧
    (cacheGet t₁ cacheTime url params'
      (cacheGet t₀ cacheTime url params cache r₁).1 r₂).2.2 = false ∧
    (cacheGet t₁ cacheTime url params'
      (cacheGet t₀ cacheTime url params cache r₁).1 r₂).2.1 = r₁ ∧
    (∀ (now : Nat) (c : List (CacheKey × (Nat × α))) (e : CacheKey × (Nat × α)),
      e ∈ flushCache now c → now ≤ e.2.1) := by
  have hkey : canonParams params' = canonParams params := canonParams_perm hperm
  have hfirst : cacheGet t₀ cacheTime url params cache r₁ =
      (flushCache t₀ cache ++ [((url, canonParams params), (t₀ + cacheTime, r₁))],
        r₁, true) := by
    simp [cacheGet, hmiss, dictSet_eq_append _ hmiss]
  have hsurvive : assocGet? (flushCache t₁
      (flushCache t₀ cache ++ [((url, canonParams params), (t₀ + cacheTime, r₁))]))
      (url, canonParams params) = some (t₀ + cacheTime, r₁) := by
    rw [flushCache, List.filter_append]
    have hkeep : List.filter (fun e => decide (t₁ ≤ e.2.1))
        [((url, canonParams params), (t₀ + cacheTime, r₁))] =
        [((url, canonParams params), (t₀ + cacheTime, r₁))] := by
      simp [List.filter, hfresh]
    rw [hkeep]
    have hnone : assocGet? (List.filter (fun e => decide (t₁ ≤ e.2.1))
        (flushCache t₀ cache)) (url, canonParams params) = none :=
      assocGet?_filter_none _ hmiss
    rw [assocGet?_append_right _ hnone]
    simp [assocGet?]
  refine ⟨by rw [hfirst], by rw [hfirst], ?_, ?_, ?_⟩
  · rw [hfirst]
    simp [cacheGet, hkey, hsurvive]
  · rw [hfirst]
    simp [cacheGet, hkey, hsurvive]
  · intro now c e he
    have hm := List.mem_filter.mp he
    simpa using hm.2

theorem claim_C10_witness :
    (cacheGet 0 10 "u" [("b", "2"), ("a", "1")]
      ([] : List (CacheKey × (Nat × Nat))) 7).2.2 = true ∧
    (cacheGet 0 10 "u" [("b", "2"), ("a", "1")]
      ([] : List (CacheKey × (Nat × Nat))) 7).2.1 = 7 ∧
    (cacheGet 5 10 "u" [("a", "1"), ("b", "2")]
      (cacheGet 0 10 "u" [("b", "2"), ("a", "1")]
        ([] : List (CacheKey × (Nat × Nat))) 7).1 8).2.2 = false ∧
    (cacheGet 5 10 "u" [("a", "1"), ("b", "2")]
      (cacheGet 0 10 "u" [("b", "2"), ("a", "1")]
        ([] : List (CacheKey × (Nat × Nat))) 7).1 8).2.1 = 7 := by
  have h := claim_C10_cache_hit 10 0 5 "u" [("b", "2"), ("a", "1")]
    [("a", "1"), ("b", "2")] ([] : List (CacheKey × (Nat × Nat))) 7 8
    (by decide) rfl (by decide)
  exact ⟨h.1, h.2.1, h.2.2.1, h.2.2.2.1⟩
